import Mathlib

/-!
Shallow embedding of the Ampire AM-4001280ATZQW-00H MIPI-DSI panel driver
(panel-ampire-am4001280atzqw00h.c) and proofs about its lifecycle state
machine, command-upload loop, backlight gating and wait helper.

Modelling conventions:
* `DrvData` holds the runtime flags of `struct panel_driver_data`
  (`prepared`, `enabled`, `suspended`), the `MIPI_DSI_MODE_LPM` bit of
  `dsi->mode_flags` (`lpm`), and whether the optional reset GPIO was found
  (`resetPin`; `gpiod_set_value_cansleep` on an absent pin is a no-op).
* Every externally visible hardware action (regulator calls, DSI commands,
  GPIO writes, sleeps, backlight calls, error logs) is recorded in order in
  an event trace.
* Fallible external calls (regulators, DSI writes, `backlight_disable`)
  return the C `int`/`ssize_t` result; they are driven by an `Oracle`
  mapping the index of the fallible call to its return value, with the
  driver code checking `ret < 0` exactly where the C source does.
  The `return 1` precondition-violation paths of the source are kept as
  the literal value `1`, together with the `DRM_DEV_ERROR` / `dev_warn`
  message they print, recorded as a `LogMsg` trace event.
-/

namespace Ampire

/-- One `struct cmd_set_entry`: a `(cmd, param)` byte pair. -/
structure CmdSetEntry where
  cmd : Nat
  param : Nat
deriving DecidableEq, Repr

/-- Identifiers for the `DRM_DEV_ERROR` / `dev_warn` messages of the driver,
one per message string in the source. -/
inductive LogMsg where
  | prepareAlreadyPrepared
  | prepareRegulatorFail
  | unprepareNotPrepared
  | unprepareRegulatorFail
  | suspendAlreadySuspended
  | suspendEnterSleepFail
  | resumeNotSuspended
  | resumeExitSleepFail
  | enableAlreadyEnabled
  | enableSoftResetFail
  | enableEnterSleepFail
  | enableDisplayOffFail
  | enableMcsFail
  | enableExitSleepFail
  | enableDisplayOnFail
  | disableNotEnabled
  | disableBacklightFail
  | disableDisplayOffFail
  | disableEnterSleepFail
  | waitInvalidTime
  | waitEnterIdleFail
  | waitExitIdleFail
  | backlightNotPrepared
  | backlightSetBrightnessFail
deriving DecidableEq, Repr

/-- Externally visible actions of the driver, recorded in order. -/
inductive Event where
  | regulatorOn
  | regulatorOff
  | gpioSet (value : Nat)
  | usleepRange (lo hi : Nat)
  | msleep (ms : Nat)
  | genericWrite (bytes : List Nat)
  | dcsSoftReset
  | dcsEnterSleep
  | dcsExitSleep
  | dcsDisplayOff
  | dcsDisplayOn
  | dcsWrite (cmd : Nat)
  | dcsSetBrightness (level : Nat)
  | backlightOn
  | backlightOff
  | setLpm (b : Bool)
  | log (m : LogMsg)
deriving DecidableEq, Repr

/-- Whether an event is a command-bus (DSI) access. -/
def Event.isBus : Event → Bool
  | .genericWrite _ => true
  | .dcsSoftReset => true
  | .dcsEnterSleep => true
  | .dcsExitSleep => true
  | .dcsDisplayOff => true
  | .dcsDisplayOn => true
  | .dcsWrite _ => true
  | .dcsSetBrightness _ => true
  | _ => false

/-- Runtime flags of `struct panel_driver_data` plus the LPM mode bit and
reset-GPIO presence. -/
structure DrvData where
  prepared : Bool
  enabled : Bool
  suspended : Bool
  lpm : Bool
  resetPin : Bool
deriving DecidableEq, Repr

/-- Driver state: flags, count of fallible external calls made so far, and
the trace of hardware actions. -/
structure S where
  drv : DrvData
  n : Nat
  tr : List Event
deriving DecidableEq, Repr

/-- Environment oracle: result of the i-th fallible external call
(negative means failure, exactly as the C code tests `ret < 0`). -/
def Oracle := Nat → Int

/-- Record an infallible action. -/
def emit (s : S) (e : Event) : S :=
  { s with tr := s.tr ++ [e] }

/-- Make a fallible external call: consult the oracle, bump the call
counter, record the attempt. -/
def call (o : Oracle) (s : S) (e : Event) : Int × S :=
  (o s.n, { s with n := s.n + 1, tr := s.tr ++ [e] })

def regulator_bulk_enable (o : Oracle) (s : S) : Int × S := call o s .regulatorOn

def regulator_bulk_disable (o : Oracle) (s : S) : Int × S := call o s .regulatorOff

def mipi_dsi_generic_write (o : Oracle) (s : S) (bytes : List Nat) : Int × S :=
  call o s (.genericWrite bytes)

def mipi_dsi_dcs_soft_reset (o : Oracle) (s : S) : Int × S := call o s .dcsSoftReset

def mipi_dsi_dcs_enter_sleep_mode (o : Oracle) (s : S) : Int × S := call o s .dcsEnterSleep

def mipi_dsi_dcs_exit_sleep_mode (o : Oracle) (s : S) : Int × S := call o s .dcsExitSleep

def mipi_dsi_dcs_set_display_off (o : Oracle) (s : S) : Int × S := call o s .dcsDisplayOff

def mipi_dsi_dcs_set_display_on (o : Oracle) (s : S) : Int × S := call o s .dcsDisplayOn

def mipi_dsi_dcs_write (o : Oracle) (s : S) (cmd : Nat) : Int × S := call o s (.dcsWrite cmd)

def mipi_dsi_dcs_set_display_brightness (o : Oracle) (s : S) (level : Nat) : Int × S :=
  call o s (.dcsSetBrightness level)

def backlight_disable (o : Oracle) (s : S) : Int × S := call o s .backlightOff

/-- `backlight_enable`: its return value is ignored by the only caller. -/
def backlight_enable (s : S) : S := emit s .backlightOn

/-- `gpiod_set_value_cansleep` on the reset pin; a no-op when the optional
pin is absent (kernel semantics for a NULL descriptor). -/
def gpiod_set_value_cansleep (s : S) (v : Nat) : S :=
  if s.drv.resetPin then emit s (.gpioSet v) else s

def usleep_range (s : S) (lo hi : Nat) : S := emit s (.usleepRange lo hi)

def msleep (s : S) (ms : Nat) : S := emit s (.msleep ms)

/-- Set or clear the `MIPI_DSI_MODE_LPM` bit of `dsi->mode_flags`. -/
def setLpm (s : S) (b : Bool) : S :=
  { s with drv := { s.drv with lpm := b }, tr := s.tr ++ [.setLpm b] }

def MIPI_DCS_EXIT_IDLE_MODE : Nat := 0x38

def MIPI_DCS_ENTER_IDLE_MODE : Nat := 0x39

/-- `ms_to_ktime`: milliseconds to `ktime_t` nanoseconds. -/
def ms_to_ktime (ms : Nat) : Int := (ms : Int) * 1000000

end Ampire

namespace Ampire

/-- The Manufacturer Command Set table `mcs_am40001280` (254 entries). -/
def mcs_am40001280 : List CmdSetEntry :=
  let m : Nat -> Nat -> CmdSetEntry := fun a b => { cmd := a, param := b }
  [
  m 0xB0 0x5A, m 0xB1 0x00, m 0x89 0x01, m 0x91 0x07, m 0x92 0xF9, m 0xB1 0x03,
  m 0x2C 0x28, m 0x00 0xB7, m 0x01 0x1B, m 0x02 0x00, m 0x03 0x00, m 0x04 0x00,
  m 0x05 0x00, m 0x06 0x00, m 0x07 0x00, m 0x08 0x00, m 0x09 0x00, m 0x0A 0x01,
  m 0x0B 0x01, m 0x0C 0x20, m 0x0D 0x00, m 0x0E 0x24, m 0x0F 0x1C, m 0x10 0xC9,
  m 0x11 0x60, m 0x12 0x70, m 0x13 0x01, m 0x14 0xE7, m 0x15 0xFF, m 0x16 0x3D,
  m 0x17 0x0E, m 0x18 0x01, m 0x19 0x00, m 0x1A 0x00, m 0x1B 0xFC, m 0x1C 0x0B,
  m 0x1D 0xA0, m 0x1E 0x03, m 0x1F 0x04, m 0x20 0x0C, m 0x21 0x00, m 0x22 0x04,
  m 0x23 0x81, m 0x24 0x1F, m 0x25 0x10, m 0x26 0x9B, m 0x2D 0x01, m 0x2E 0x84,
  m 0x2F 0x00, m 0x30 0x02, m 0x31 0x08, m 0x32 0x01, m 0x33 0x1C, m 0x34 0x40,
  m 0x35 0xFF, m 0x36 0xFF, m 0x37 0xFF, m 0x38 0xFF, m 0x39 0xFF, m 0x3A 0x05,
  m 0x3B 0x00, m 0x3C 0x00, m 0x3D 0x00, m 0x3E 0xCF, m 0x3F 0x84, m 0x40 0x28,
  m 0x41 0xFC, m 0x42 0x01, m 0x43 0x40, m 0x44 0x05, m 0x45 0xE8, m 0x46 0x16,
  m 0x47 0x00, m 0x48 0x00, m 0x49 0x88, m 0x4A 0x08, m 0x4B 0x05, m 0x4C 0x03,
  m 0x4D 0xD0, m 0x4E 0x13, m 0x4F 0xFF, m 0x50 0x0A, m 0x51 0x53, m 0x52 0x26,
  m 0x53 0x22, m 0x54 0x09, m 0x55 0x22, m 0x56 0x00, m 0x57 0x1C, m 0x58 0x03,
  m 0x59 0x3F, m 0x5A 0x28, m 0x5B 0x01, m 0x5C 0xCC, m 0x5D 0x21, m 0x5E 0x84,
  m 0x5F 0x10, m 0x60 0x42, m 0x61 0x40, m 0x62 0x06, m 0x63 0x3A, m 0x64 0xA6,
  m 0x65 0x04, m 0x66 0x09, m 0x67 0x21, m 0x68 0x84, m 0x69 0x10, m 0x6A 0x42,
  m 0x6B 0x08, m 0x6C 0x21, m 0x6D 0x84, m 0x6E 0x74, m 0x6F 0xE2, m 0x70 0x6B,
  m 0x71 0x6B, m 0x72 0x94, m 0x73 0x10, m 0x74 0x42, m 0x75 0x08, m 0x76 0x00,
  m 0x77 0x00, m 0x78 0x0F, m 0x79 0xE0, m 0x7A 0x01, m 0x7B 0xFF, m 0x7C 0xFF,
  m 0x7D 0x0F, m 0x7E 0x41, m 0x7F 0xFE, m 0xB1 0x02, m 0x00 0xFF, m 0x01 0x05,
  m 0x02 0xC8, m 0x03 0x00, m 0x04 0x14, m 0x05 0x4B, m 0x06 0x64, m 0x07 0x0A,
  m 0x08 0xC0, m 0x09 0x00, m 0x0A 0x00, m 0x0B 0x10, m 0x0C 0xE6, m 0x0D 0x0D,
  m 0x0F 0x00, m 0x10 0x3D, m 0x11 0x4C, m 0x12 0xCF, m 0x13 0xAD, m 0x14 0x4A,
  m 0x15 0x92, m 0x16 0x24, m 0x17 0x55, m 0x18 0x73, m 0x19 0xE9, m 0x1A 0x70,
  m 0x1B 0x0E, m 0x1C 0xFF, m 0x1D 0xFF, m 0x1E 0xFF, m 0x1F 0xFF, m 0x20 0xFF,
  m 0x21 0xFF, m 0x22 0xFF, m 0x23 0xFF, m 0x24 0xFF, m 0x25 0xFF, m 0x26 0xFF,
  m 0x27 0x1F, m 0x28 0xFF, m 0x29 0xFF, m 0x2A 0xFF, m 0x2B 0xFF, m 0x2C 0xFF,
  m 0x2D 0x07, m 0x33 0x3F, m 0x35 0x7F, m 0x36 0x3F, m 0x38 0xFF, m 0x3A 0x80,
  m 0x3B 0x01, m 0x3C 0x80, m 0x3D 0x2C, m 0x3E 0x00, m 0x3F 0x90, m 0x40 0x05,
  m 0x41 0x00, m 0x42 0xB2, m 0x43 0x00, m 0x44 0x40, m 0x45 0x06, m 0x46 0x00,
  m 0x47 0x00, m 0x48 0x9B, m 0x49 0xD2, m 0x4A 0x21, m 0x4B 0x43, m 0x4C 0x16,
  m 0x4D 0xC0, m 0x4E 0x0F, m 0x4F 0xF1, m 0x50 0x78, m 0x51 0x7A, m 0x52 0x34,
  m 0x53 0x99, m 0x54 0xA2, m 0x55 0x02, m 0x56 0x14, m 0x57 0xB8, m 0x58 0xDC,
  m 0x59 0xD4, m 0x5A 0xEF, m 0x5B 0xF7, m 0x5C 0xFB, m 0x5D 0xFD, m 0x5E 0x7E,
  m 0x5F 0xBF, m 0x60 0xEF, m 0x61 0xE6, m 0x62 0x76, m 0x63 0x73, m 0x64 0xBB,
  m 0x65 0xDD, m 0x66 0x6E, m 0x67 0x37, m 0x68 0x8C, m 0x69 0x08, m 0x6A 0x31,
  m 0x6B 0xB8, m 0x6C 0xB8, m 0x6D 0xB8, m 0x6E 0xB8, m 0x6F 0xB8, m 0x70 0x5C,
  m 0x71 0x2E, m 0x72 0x17, m 0x73 0x00, m 0x74 0x00, m 0x75 0x00, m 0x76 0x00,
  m 0x77 0x00, m 0x78 0x00, m 0x79 0x00, m 0x7A 0xDC, m 0x7B 0xDC, m 0x7C 0xDC,
  m 0x7D 0xDC, m 0x7E 0xDC, m 0x7F 0x6E, m 0x0B 0x00, m 0xB1 0x03, m 0x2C 0x2C,
  m 0xB1 0x00, m 0x89 0x03
  ]

/-- `push_cmd_list`: replay the command set; each entry is a single
two-byte `(cmd, param)` generic write, stopping at the first write whose
result is negative and returning that result. -/
def push_cmd_list (o : Oracle) (s : S) : List CmdSetEntry → Int × S
  | [] => (0, s)
  | entry :: rest =>
    let r := mipi_dsi_generic_write o s [entry.cmd, entry.param]
    if r.1 < 0 then (r.1, r.2) else push_cmd_list o r.2 rest

/-- `am4001280atzqw00h_prepare`. -/
def am4001280atzqw00h_prepare (o : Oracle) (s : S) : Int × S :=
  if s.drv.prepared then
    (1, emit s (.log .prepareAlreadyPrepared))
  else
    let r := regulator_bulk_enable o s
    if r.1 < 0 then (r.1, emit r.2 (.log .prepareRegulatorFail))
    else
      let s1 := usleep_range r.2 10000 12000
      let s2 := if s1.drv.resetPin then msleep (gpiod_set_value_cansleep s1 0) 50 else s1
      (0, s2)

/-- `am4001280atzqw00h_unprepare`. -/
def am4001280atzqw00h_unprepare (o : Oracle) (s : S) : Int × S :=
  if s.drv.prepared then
    (1, emit s (.log .unprepareNotPrepared))
  else
    let s1 :=
      if s.drv.resetPin then
        gpiod_set_value_cansleep (usleep_range (gpiod_set_value_cansleep s 1) 15000 17000) 0
      else s
    let r := regulator_bulk_disable o s1
    if r.1 < 0 then (r.1, emit r.2 (.log .unprepareRegulatorFail))
    else (0, { r.2 with drv := { r.2.drv with prepared := false } })

/-- `am4001280atzqw00h_suspend`. -/
def am4001280atzqw00h_suspend (o : Oracle) (s : S) : Int × S :=
  if s.drv.suspended then
    (1, emit s (.log .suspendAlreadySuspended))
  else
    let r := mipi_dsi_dcs_enter_sleep_mode o s
    if r.1 < 0 then (r.1, emit r.2 (.log .suspendEnterSleepFail))
    else (0, r.2)

/-- `am4001280atzqw00h_resume`. -/
def am4001280atzqw00h_resume (o : Oracle) (s : S) : Int × S :=
  if !s.drv.suspended then
    (1, emit s (.log .resumeNotSuspended))
  else
    let r := mipi_dsi_dcs_exit_sleep_mode o s
    if r.1 < 0 then (r.1, emit r.2 (.log .resumeExitSleepFail))
    else (0, r.2)

/-- The `fail:` label of `am4001280atzqw00h_platform_enable`: assert the
reset line and return the error. -/
def enableFail (s : S) (ret : Int) : Int × S :=
  (ret, gpiod_set_value_cansleep s 1)

/-- `am4001280atzqw00h_platform_enable`. -/
def am4001280atzqw00h_platform_enable (o : Oracle) (s : S) : Int × S :=
  if s.drv.enabled then
    (1, emit s (.log .enableAlreadyEnabled))
  else
    let r1 := mipi_dsi_dcs_soft_reset o s
    if r1.1 < 0 then enableFail (emit r1.2 (.log .enableSoftResetFail)) r1.1
    else
    let s1 := setLpm r1.2 true
    let r2 := am4001280atzqw00h_suspend o s1
    if r2.1 < 0 then enableFail (emit r2.2 (.log .enableEnterSleepFail)) r2.1
    else
    let r3 := mipi_dsi_dcs_set_display_off o r2.2
    if r3.1 < 0 then enableFail (emit r3.2 (.log .enableDisplayOffFail)) r3.1
    else
    let r4 := push_cmd_list o r3.2 mcs_am40001280
    if r4.1 < 0 then enableFail (emit r4.2 (.log .enableMcsFail)) r4.1
    else
    let r5 := am4001280atzqw00h_resume o r4.2
    if r5.1 < 0 then enableFail (emit r5.2 (.log .enableExitSleepFail)) r5.1
    else
    let s2 := usleep_range r5.2 5000 7000
    let r6 := mipi_dsi_dcs_set_display_on o s2
    if r6.1 < 0 then enableFail (emit r6.2 (.log .enableDisplayOnFail)) r6.1
    else
    let s3 := backlight_enable r6.2
    (0, { s3 with drv := { s3.drv with enabled := true } })

/-- `am4001280atzqw00h_enable`: dispatches through
`drv_data->pl_data->enable`, bound to `am4001280atzqw00h_platform_enable`
in `am4001280atzqw00h_platform_data`. -/
def am4001280atzqw00h_enable (o : Oracle) (s : S) : Int × S :=
  am4001280atzqw00h_platform_enable o s

/-- `am4001280atzqw00h_disable`. -/
def am4001280atzqw00h_disable (o : Oracle) (s : S) : Int × S :=
  if s.drv.enabled then
    (1, emit s (.log .disableNotEnabled))
  else
    let r1 := backlight_disable o s
    if r1.1 < 0 then (r1.1, emit r1.2 (.log .disableBacklightFail))
    else
    let s1 := usleep_range r1.2 10000 12000
    let s2 := setLpm s1 false
    let r2 := mipi_dsi_dcs_set_display_off o s2
    if r2.1 < 0 then (r2.1, emit r2.2 (.log .disableDisplayOffFail))
    else
    let r3 := am4001280atzqw00h_suspend o r2.2
    if r3.1 < 0 then (r3.1, setLpm (emit r3.2 (.log .disableEnterSleepFail)) true)
    else
    let s3 := setLpm r3.2 true
    (0, { s3 with drv := { s3.drv with enabled := false } })

/-- `am4001280atzqw00h_wait`: `start_ktime` is the caller-supplied
reference time and `now` the value `ktime_get()` returns during the call,
both in nanoseconds. -/
def am4001280atzqw00h_wait (o : Oracle) (s : S) (start_ktime now : Int) (min_ms : Nat) :
    Int × S :=
  if min_ms = 0 then
    (1, emit s (.log .waitInvalidTime))
  else
    let min_ktime : Int := start_ktime + ms_to_ktime min_ms
    let r1 := mipi_dsi_dcs_write o s MIPI_DCS_ENTER_IDLE_MODE
    if r1.1 < 0 then (r1.1, emit r1.2 (.log .waitEnterIdleFail))
    else
    let s1 :=
      if now < min_ktime then msleep r1.2 ((min_ktime - now).toNat / 1000000 + 1) else r1.2
    let r2 := mipi_dsi_dcs_write o s1 MIPI_DCS_EXIT_IDLE_MODE
    if r2.1 < 0 then (r2.1, emit r2.2 (.log .waitExitIdleFail))
    else (0, r2.2)

/-- `am4001280atzqw00h_backlight_update_status`; `brightness` stands for
`bl_dev->props.brightness`. -/
def am4001280atzqw00h_backlight_update_status (o : Oracle) (s : S) (brightness : Nat) :
    Int × S :=
  if !s.drv.prepared then
    (0, emit s (.log .backlightNotPrepared))
  else
    let r := mipi_dsi_dcs_set_display_brightness o s brightness
    if r.1 < 0 then (r.1, emit r.2 (.log .backlightSetBrightnessFail))
    else (0, r.2)

/-- The lifecycle entry points of the driver. -/
inductive Op where
  | prepareOp
  | enableOp
  | disableOp
  | unprepareOp
  | suspendOp
  | resumeOp
deriving DecidableEq, Repr

/-- Execute one lifecycle operation, keeping the resulting state. -/
def stepOp (o : Oracle) (s : S) : Op → S
  | .prepareOp => (am4001280atzqw00h_prepare o s).2
  | .enableOp => (am4001280atzqw00h_enable o s).2
  | .disableOp => (am4001280atzqw00h_disable o s).2
  | .unprepareOp => (am4001280atzqw00h_unprepare o s).2
  | .suspendOp => (am4001280atzqw00h_suspend o s).2
  | .resumeOp => (am4001280atzqw00h_resume o s).2

/-- Execute a sequence of lifecycle operations. -/
def runOps (o : Oracle) (s : S) (ops : List Op) : S := ops.foldl (stepOp o) s

/-- State right after a successful probe: `devm_kzalloc` leaves all flags
false, `dsi->mode_flags` has no LPM bit, and the optional reset GPIO is
present on the reference hardware. -/
def s0 : S :=
  { drv := { prepared := false, enabled := false, suspended := false,
             lpm := false, resetPin := true },
    n := 0, tr := [] }

/-- An environment in which every external call succeeds. -/
def oraAllOk : Oracle := fun _ => 0

end Ampire

namespace Ampire

/-- A state in which the panel has been prepared (and not enabled). -/
def sPrepared : S :=
  { s0 with drv := { s0.drv with prepared := true } }

/-- A state in which the panel has been prepared and enabled. -/
def sEnabled : S :=
  { s0 with drv := { s0.drv with prepared := true, enabled := true } }

/-- Claim C1 (code bug): the claim says `unprepare` succeeds exactly when the
panel is already prepared (and disabled), and fails with the named error in
any other state.  The code tests `if (drv_data->prepared)` and errors, so it
fails precisely in the state in which its own error message ("despite
already not being prepared") and the claim say it must succeed, and it runs
the reset bounce plus regulator disable precisely when the panel is NOT
prepared. -/
theorem c1_unprepare_precondition_inverted :
    am4001280atzqw00h_unprepare oraAllOk sPrepared =
      (1, emit sPrepared (.log .unprepareNotPrepared)) ∧
    (am4001280atzqw00h_unprepare oraAllOk s0).1 = 0 ∧
    (am4001280atzqw00h_unprepare oraAllOk s0).2.tr =
      [.gpioSet 1, .usleepRange 15000 17000, .gpioSet 0, .regulatorOff] := by
  decide

/-- Claim C2 (code bug): the claim says a successful `prepare` from the
`Unprepared` state leaves the panel in state `Prepared`.  With every
external call succeeding, `prepare` from the freshly probed state returns
success, but the `prepared` flag is still false afterwards: the function
never executes `drv_data->prepared = true`. -/
theorem c2_prepare_does_not_set_prepared :
    (am4001280atzqw00h_prepare oraAllOk s0).1 = 0 ∧
    (am4001280atzqw00h_prepare oraAllOk s0).2.drv.prepared = false := by
  decide

/-- Claim C4 (code bug): the claim says `disable` called in state `Enabled`
passes its precondition check and proceeds with the teardown, and fails
with `NotEnabled` otherwise.  The code tests `if (drv_data->enabled)` and
errors, so it rejects exactly the enabled state (contradicting its own
"despite not being enabled" message) and runs the full teardown sequence
when the panel is not enabled. -/
theorem c4_disable_precondition_inverted :
    am4001280atzqw00h_disable oraAllOk sEnabled =
      (1, emit sEnabled (.log .disableNotEnabled)) ∧
    (am4001280atzqw00h_disable oraAllOk s0).1 = 0 ∧
    (am4001280atzqw00h_disable oraAllOk s0).2.tr =
      [.backlightOff, .usleepRange 10000 12000, .setLpm false,
       .dcsDisplayOff, .dcsEnterSleep, .setLpm true] := by
  decide

/-- Claim C5 (code bug): the claim says a successful `suspend` sets the
suspended flag so that it reflects whether DCS sleep is active.  With the
enter-sleep write succeeding, `suspend` returns success but never sets
`drv_data->suspended`; a subsequent `resume` therefore fails with the
`NotSuspended` error (return 1) although sleep is actually active, and
issues no bus command (the only bus access in the whole run is the
enter-sleep write). -/
theorem c5_suspend_flag_never_recorded :
    (am4001280atzqw00h_suspend oraAllOk s0).1 = 0 ∧
    (am4001280atzqw00h_suspend oraAllOk s0).2.drv.suspended = false ∧
    (am4001280atzqw00h_resume oraAllOk (am4001280atzqw00h_suspend oraAllOk s0).2).1 = 1 ∧
    ((am4001280atzqw00h_resume oraAllOk
        (am4001280atzqw00h_suspend oraAllOk s0).2).2.tr.filter (fun e => e.isBus)) =
      [.dcsEnterSleep] := by
  decide

end Ampire

namespace Ampire

set_option maxRecDepth 100000

/-- Claim C3 (code bug): the claim states the invariant "enabled implies
prepared" for every sequence of lifecycle operations from the unprepared
initial state.  The single-operation sequence `[Enable]`, with every
external call succeeding, already violates it: `enable` neither checks nor
sets the `prepared` flag (and `prepare` never sets it either), so the run
ends with `enabled = true` and `prepared = false`. -/
theorem c3_enabled_without_prepared :
    (runOps oraAllOk s0 [.enableOp]).drv.enabled = true ∧
    (runOps oraAllOk s0 [.enableOp]).drv.prepared = false := by
  decide

/-- Claim C6 (code bug): the claim says a successful `enable` issues, in
order: soft reset, low-power mode switch, enter-sleep, display-off, the
full command-set replay, exit-sleep, settle delay, display-on, backlight
enable.  In the code the `suspended` flag is never recorded, so the
`resume()` call inside `enable` bails out with the `NotSuspended` error
(return 1) before touching the bus, and `enable` ignores that positive
return (`if (ret < 0)`): the complete action trace of a successful enable
contains no exit-sleep-mode command at all. -/
theorem c6_enable_skips_exit_sleep :
    (am4001280atzqw00h_platform_enable oraAllOk s0).1 = 0 ∧
    (am4001280atzqw00h_platform_enable oraAllOk s0).2.tr =
      [.dcsSoftReset, .setLpm true, .dcsEnterSleep, .dcsDisplayOff] ++
        mcs_am40001280.map (fun e => .genericWrite [e.cmd, e.param]) ++
        [.log .resumeNotSuspended, .usleepRange 5000 7000, .dcsDisplayOn, .backlightOn] ∧
    Event.dcsExitSleep ∉ (am4001280atzqw00h_platform_enable oraAllOk s0).2.tr := by
  decide

/-- Claim C9 (code bug): before `prepare`, a brightness update is a
successful no-op with no command-bus access — that half of the claim holds.
But because `prepare` never sets the `prepared` flag, the same call made
after a successful `prepare` followed by a successful `enable` still takes
the not-prepared warning path: it returns 0, ends with the "not prepared"
warning, and issues no brightness write at all, where the claim requires
exactly one brightness write carrying level 128. -/
theorem c9_set_brightness_noop_even_after_enable :
    (am4001280atzqw00h_backlight_update_status oraAllOk s0 128).1 = 0 ∧
    ((am4001280atzqw00h_backlight_update_status oraAllOk s0 128).2.tr.filter
        (fun e => e.isBus)) = [] ∧
    (am4001280atzqw00h_prepare oraAllOk s0).1 = 0 ∧
    (am4001280atzqw00h_platform_enable oraAllOk (am4001280atzqw00h_prepare oraAllOk s0).2).1
      = 0 ∧
    (am4001280atzqw00h_backlight_update_status oraAllOk
        (am4001280atzqw00h_platform_enable oraAllOk
          (am4001280atzqw00h_prepare oraAllOk s0).2).2 128).1 = 0 ∧
    ((am4001280atzqw00h_backlight_update_status oraAllOk
        (am4001280atzqw00h_platform_enable oraAllOk
          (am4001280atzqw00h_prepare oraAllOk s0).2).2 128).2.tr.filter
        (fun e => decide (e = Event.dcsSetBrightness 128))) = [] ∧
    ((am4001280atzqw00h_backlight_update_status oraAllOk
        (am4001280atzqw00h_platform_enable oraAllOk
          (am4001280atzqw00h_prepare oraAllOk s0).2).2 128).2.tr.getLast?) =
      some (.log .backlightNotPrepared) := by
  decide

end Ampire

namespace Ampire

@[simp]
theorem call_fst (o : Oracle) (s : S) (e : Event) : (call o s e).1 = o s.n := rfl

@[simp]
theorem call_snd_drv (o : Oracle) (s : S) (e : Event) : (call o s e).2.drv = s.drv := rfl

@[simp]
theorem call_snd_n (o : Oracle) (s : S) (e : Event) : (call o s e).2.n = s.n + 1 := rfl

@[simp]
theorem call_snd_tr (o : Oracle) (s : S) (e : Event) : (call o s e).2.tr = s.tr ++ [e] := rfl

@[simp]
theorem emit_drv (s : S) (e : Event) : (emit s e).drv = s.drv := rfl

@[simp]
theorem emit_n (s : S) (e : Event) : (emit s e).n = s.n := rfl

@[simp]
theorem emit_tr (s : S) (e : Event) : (emit s e).tr = s.tr ++ [e] := rfl

@[simp]
theorem setLpm_drv (s : S) (b : Bool) : (setLpm s b).drv = { s.drv with lpm := b } := rfl

@[simp]
theorem setLpm_n (s : S) (b : Bool) : (setLpm s b).n = s.n := rfl

@[simp]
theorem setLpm_tr (s : S) (b : Bool) : (setLpm s b).tr = s.tr ++ [.setLpm b] := rfl

/-- `suspend` never changes the driver flags (in particular it fails to
record the suspended flag). -/
@[simp]
theorem suspend_drv (o : Oracle) (s : S) :
    (am4001280atzqw00h_suspend o s).2.drv = s.drv := by
  unfold am4001280atzqw00h_suspend mipi_dsi_dcs_enter_sleep_mode
  simp only [call]
  split
  · rfl
  · split <;> rfl

/-- `resume` never changes the driver flags. -/
@[simp]
theorem resume_drv (o : Oracle) (s : S) :
    (am4001280atzqw00h_resume o s).2.drv = s.drv := by
  unfold am4001280atzqw00h_resume mipi_dsi_dcs_exit_sleep_mode
  simp only [call]
  split
  · rfl
  · split <;> rfl

/-- `push_cmd_list` never changes the driver flags. -/
@[simp]
theorem push_cmd_list_drv (l : List CmdSetEntry) (o : Oracle) (s : S) :
    (push_cmd_list o s l).2.drv = s.drv := by
  induction l generalizing s with
  | nil => rfl
  | cons e rest ih =>
    unfold push_cmd_list mipi_dsi_generic_write
    simp only [call]
    split
    · rfl
    · rw [ih]

/-- The result of `suspend` is 0, the precondition error 1, or the
(negative) result of some external call. -/
theorem suspend_ret (o : Oracle) (s : S) :
    (am4001280atzqw00h_suspend o s).1 = 0 ∨ (am4001280atzqw00h_suspend o s).1 = 1 ∨
      ∃ k, (am4001280atzqw00h_suspend o s).1 = o k ∧ o k < 0 := by
  unfold am4001280atzqw00h_suspend mipi_dsi_dcs_enter_sleep_mode
  simp only [call]
  split
  · right; left; rfl
  · split
    · next h => right; right; exact ⟨s.n, rfl, h⟩
    · left; rfl

/-- The result of `resume` is 0, the precondition error 1, or the
(negative) result of some external call. -/
theorem resume_ret (o : Oracle) (s : S) :
    (am4001280atzqw00h_resume o s).1 = 0 ∨ (am4001280atzqw00h_resume o s).1 = 1 ∨
      ∃ k, (am4001280atzqw00h_resume o s).1 = o k ∧ o k < 0 := by
  unfold am4001280atzqw00h_resume mipi_dsi_dcs_exit_sleep_mode
  simp only [call]
  split
  · right; left; rfl
  · split
    · next h => right; right; exact ⟨s.n, rfl, h⟩
    · left; rfl

/-- The result of `push_cmd_list` is 0 or the (negative) result of some
external call. -/
theorem push_cmd_list_ret (l : List CmdSetEntry) (o : Oracle) (s : S) :
    (push_cmd_list o s l).1 = 0 ∨ ∃ k, (push_cmd_list o s l).1 = o k ∧ o k < 0 := by
  induction l generalizing s with
  | nil => left; rfl
  | cons e rest ih =>
    unfold push_cmd_list mipi_dsi_generic_write
    simp only [call]
    split
    · next h => right; exact ⟨s.n, rfl, h⟩
    · exact ih _

end Ampire

namespace Ampire

/-- A failing `suspend` returns the (negative) result of an external call. -/
theorem suspend_fail_src (o : Oracle) (s : S)
    (h : (am4001280atzqw00h_suspend o s).1 < 0) :
    ∃ k, (am4001280atzqw00h_suspend o s).1 = o k ∧ o k < 0 := by
  rcases suspend_ret o s with h0 | h0 | hk
  · rw [h0] at h; exact absurd h (lt_irrefl 0)
  · rw [h0] at h; exact absurd h (by norm_num)
  · exact hk

/-- A failing `resume` returns the (negative) result of an external call. -/
theorem resume_fail_src (o : Oracle) (s : S)
    (h : (am4001280atzqw00h_resume o s).1 < 0) :
    ∃ k, (am4001280atzqw00h_resume o s).1 = o k ∧ o k < 0 := by
  rcases resume_ret o s with h0 | h0 | hk
  · rw [h0] at h; exact absurd h (lt_irrefl 0)
  · rw [h0] at h; exact absurd h (by norm_num)
  · exact hk

/-- A failing `push_cmd_list` returns the (negative) result of an external
call. -/
theorem push_cmd_list_fail_src (o : Oracle) (s : S) (l : List CmdSetEntry)
    (h : (push_cmd_list o s l).1 < 0) :
    ∃ k, (push_cmd_list o s l).1 = o k ∧ o k < 0 := by
  rcases push_cmd_list_ret l o s with h0 | hk
  · rw [h0] at h; exact absurd h (lt_irrefl 0)
  · exact hk

/-- Claim C7 (confirmed): if `enable`, called with the panel prepared and
not enabled, fails (every negative return of `enable` stems from a failed
bus command, and every failed bus command makes `enable` return it), then
the `fail:` rollback ran: the last recorded action is asserting the reset
line, the failing call's error is propagated as the return value, the
panel stays prepared and the enabled flag is not set. -/
theorem c7_enable_failure_rollback (o : Oracle) (s : S)
    (hp : s.drv.prepared = true) (he : s.drv.enabled = false)
    (hr : s.drv.resetPin = true)
    (hfail : (am4001280atzqw00h_platform_enable o s).1 < 0) :
    (am4001280atzqw00h_platform_enable o s).2.drv.prepared = true ∧
    (am4001280atzqw00h_platform_enable o s).2.drv.enabled = false ∧
    (∃ t, (am4001280atzqw00h_platform_enable o s).2.tr = t ++ [.gpioSet 1]) ∧
    (∃ k, (am4001280atzqw00h_platform_enable o s).1 = o k ∧ o k < 0) := by
  simp only [am4001280atzqw00h_platform_enable, mipi_dsi_dcs_soft_reset,
    mipi_dsi_dcs_set_display_off, mipi_dsi_dcs_set_display_on, call, enableFail,
    gpiod_set_value_cansleep, backlight_enable, emit, setLpm, usleep_range,
    suspend_drv, resume_drv, push_cmd_list_drv, he, hp, hr,
    Bool.false_eq_true, if_false, if_true, ite_true, ite_false] at hfail ⊢
  split_ifs at hfail ⊢ with h1 h2 h3 h4 h5 h6
  · exact ⟨hp, he, ⟨_, rfl⟩, ⟨s.n, rfl, h1⟩⟩
  · exact ⟨by simp [hp], by simp [he], ⟨_, rfl⟩, suspend_fail_src o _ h2⟩
  · exact ⟨by simp [hp], by simp [he], ⟨_, rfl⟩, ⟨_, rfl, h3⟩⟩
  · exact ⟨by simp [hp], by simp [he], ⟨_, rfl⟩, push_cmd_list_fail_src o _ _ h4⟩
  · exact ⟨by simp [hp], by simp [he], ⟨_, rfl⟩, resume_fail_src o _ h5⟩
  · exact ⟨by simp [hp], by simp [he], ⟨_, rfl⟩, ⟨_, rfl, h6⟩⟩
  · exact absurd hfail (lt_irrefl 0)

/-- An environment in which every external call fails with -5. -/
def oraFail : Oracle := fun _ => -5

/-- Witness for claim C7, at the prepared state with an environment whose
very first bus command (the soft reset) fails with -5. -/
theorem c7_enable_failure_rollback_witness :
    (sPrepared.drv.prepared = true ∧ sPrepared.drv.enabled = false ∧
      sPrepared.drv.resetPin = true ∧
      (am4001280atzqw00h_platform_enable oraFail sPrepared).1 < 0) ∧
    ((am4001280atzqw00h_platform_enable oraFail sPrepared).2.drv.prepared = true ∧
      (am4001280atzqw00h_platform_enable oraFail sPrepared).2.drv.enabled = false ∧
      (∃ t, (am4001280atzqw00h_platform_enable oraFail sPrepared).2.tr =
        t ++ [.gpioSet 1]) ∧
      (∃ k, (am4001280atzqw00h_platform_enable oraFail sPrepared).1 = oraFail k ∧
        oraFail k < 0)) :=
  ⟨⟨by decide, by decide, by decide, by decide⟩,
   c7_enable_failure_rollback oraFail sPrepared (by decide) (by decide) (by decide)
     (by decide)⟩

end Ampire

namespace Ampire

/-- Two command-set entries, used as a small replay list. -/
def exEntries : List CmdSetEntry :=
  [{ cmd := 0xB0, param := 0x5A }, { cmd := 0xB1, param := 0x00 }]

/-- An environment whose first call succeeds and whose later calls fail
with -5. -/
def oraFail1 : Oracle := fun n => if n = 0 then 0 else -5

/-- Claim C8, counterexample: the claim says a run whose first failing
write is at index k "returns a failure tagged with the index k reached".
But `push_cmd_list` returns the failing `mipi_dsi_generic_write` result
itself (`return ret`), which carries no index: a bus failing first at
index 0 and a bus failing first at index 1 produce the very same return
value -5, so the returned failure cannot be tagged with the index
reached. -/
theorem c8_failure_not_index_tagged :
    oraFail 0 < 0 ∧
    (0 ≤ oraFail1 0 ∧ oraFail1 1 < 0) ∧
    (push_cmd_list oraFail s0 exEntries).1 = (push_cmd_list oraFail1 s0 exEntries).1 ∧
    (push_cmd_list oraFail s0 exEntries).1 = -5 := by
  decide

/-- Claim C8 (amended): for a list of entries and a bus whose writes
succeed at indices below k and fail at index k, `push_cmd_list` writes
entries 0..k-1 in order (each as a single two-byte `(cmd, param)` write),
attempts entry k (which fails), attempts nothing beyond k, and returns the
failing write's own error value (not the index); when every write
succeeds it returns 0 having written all entries in order. -/
theorem c8_push_cmd_list_stops_at_first_failure (o : Oracle) (s : S)
    (l : List CmdSetEntry) (k : Nat) :
    (k < l.length → (∀ i, i < k → 0 ≤ o (s.n + i)) → o (s.n + k) < 0 →
      push_cmd_list o s l =
        (o (s.n + k),
         { drv := s.drv, n := s.n + (k + 1),
           tr := s.tr ++ (l.take (k + 1)).map
             (fun e => .genericWrite [e.cmd, e.param]) })) ∧
    ((∀ i, i < l.length → 0 ≤ o (s.n + i)) →
      push_cmd_list o s l =
        (0, { drv := s.drv, n := s.n + l.length,
              tr := s.tr ++ l.map (fun e => .genericWrite [e.cmd, e.param]) })) := by
  induction l generalizing s k with
  | nil =>
    constructor
    · intro hk
      exact absurd hk (Nat.not_lt_zero k)
    · intro _
      simp [push_cmd_list]
  | cons e rest ih =>
    constructor
    · intro hk hpre hfail
      unfold push_cmd_list mipi_dsi_generic_write
      simp only [call]
      rcases Nat.eq_zero_or_pos k with h0 | h0
      · subst h0
        rw [Nat.add_zero] at hfail
        rw [if_pos hfail]
        simp
      · obtain ⟨j, rfl⟩ : ∃ j, k = j + 1 := ⟨k - 1, by omega⟩
        have hnn : ¬ o s.n < 0 := by
          have := hpre 0 (by omega)
          rw [Nat.add_zero] at this
          omega
        rw [if_neg hnn]
        have hpre' : ∀ i, i < j → 0 ≤ o (s.n + 1 + i) := by
          intro i hi
          have := hpre (i + 1) (by omega)
          have he2 : s.n + (i + 1) = s.n + 1 + i := by omega
          rwa [he2] at this
        have hfail' : o (s.n + 1 + j) < 0 := by
          have he2 : s.n + (j + 1) = s.n + 1 + j := by omega
          rwa [he2] at hfail
        have hih := (ih { s with n := s.n + 1, tr := s.tr ++ [Event.genericWrite [e.cmd, e.param]] } j).1 (by simpa using Nat.lt_of_succ_lt_succ hk) hpre' hfail'
        rw [hih]
        have hn : s.n + 1 + j = s.n + (j + 1) := by omega
        have hn2 : s.n + 1 + (j + 1) = s.n + (j + 1 + 1) := by omega
        simp [hn, hn2, List.append_assoc]
    · intro hall
      unfold push_cmd_list mipi_dsi_generic_write
      simp only [call]
      have hnn : ¬ o s.n < 0 := by
        have := hall 0 (by simp)
        rw [Nat.add_zero] at this
        omega
      rw [if_neg hnn]
      have hall' : ∀ i, i < rest.length → 0 ≤ o (s.n + 1 + i) := by
        intro i hi
        have := hall (i + 1) (by simp [Nat.succ_lt_succ hi])
        have he2 : s.n + (i + 1) = s.n + 1 + i := by omega
        rwa [he2] at this
      have hih := (ih { s with n := s.n + 1, tr := s.tr ++ [Event.genericWrite [e.cmd, e.param]] } 0).2 hall'
      rw [hih]
      have hn : s.n + 1 + rest.length = s.n + (rest.length + 1) := by omega
      simp [hn, List.append_assoc]

/-- Witness for the amended claim C8: two entries, first write succeeds,
second fails with -5; the run writes entry 0, attempts entry 1, and
returns -5. -/
theorem c8_push_cmd_list_witness :
    (1 < exEntries.length ∧ (∀ i, i < 1 → 0 ≤ oraFail1 (s0.n + i)) ∧
      oraFail1 (s0.n + 1) < 0) ∧
    push_cmd_list oraFail1 s0 exEntries =
      (oraFail1 (s0.n + 1),
       { drv := s0.drv, n := s0.n + (1 + 1),
         tr := s0.tr ++ (exEntries.take (1 + 1)).map
           (fun e => .genericWrite [e.cmd, e.param]) }) :=
  ⟨⟨by decide,
    by intro i hi; have h0 : i = 0 := by omega
       subst h0; decide,
    by decide⟩,
   (c8_push_cmd_list_stops_at_first_failure oraFail1 s0 exEntries 1).1 (by decide)
     (by intro i hi; have h0 : i = 0 := by omega
         subst h0; decide)
     (by decide)⟩

end Ampire

namespace Ampire

/-- Claim C10 (confirmed): with `minMilliseconds = 0` the wait helper
fails with the invalid-argument error (return 1) having recorded only the
error message — no bus access; otherwise (when both idle writes succeed)
it issues enter-idle, sleeps exactly when `referenceTime + min` has not
yet been reached when `ktime_get()` sampled the clock, then issues
exit-idle — and the slept duration, `(remaining ns)/10^6 + 1`
milliseconds, covers at least the remaining time. -/
theorem c10_wait_at_least (o : Oracle) (s : S) (t0 now : Int) (min_ms : Nat) :
    (min_ms = 0 →
      am4001280atzqw00h_wait o s t0 now min_ms = (1, emit s (.log .waitInvalidTime))) ∧
    (0 < min_ms → 0 ≤ o s.n → 0 ≤ o (s.n + 1) →
      am4001280atzqw00h_wait o s t0 now min_ms =
        (0, { drv := s.drv, n := s.n + 2,
              tr := s.tr ++ [.dcsWrite MIPI_DCS_ENTER_IDLE_MODE] ++
                (if now < t0 + ms_to_ktime min_ms then
                   [.msleep ((t0 + ms_to_ktime min_ms - now).toNat / 1000000 + 1)]
                 else []) ++
                [.dcsWrite MIPI_DCS_EXIT_IDLE_MODE] }) ∧
      (now < t0 + ms_to_ktime min_ms →
        t0 + ms_to_ktime min_ms - now ≤
          (((t0 + ms_to_ktime min_ms - now).toNat / 1000000 + 1 : Nat) : Int) * 1000000)) := by
  constructor
  · intro h0
    subst h0
    rfl
  · intro hpos h1 h2
    constructor
    · unfold am4001280atzqw00h_wait mipi_dsi_dcs_write
      simp only [call, msleep, emit]
      rw [if_neg (by omega : ¬ min_ms = 0)]
      rw [if_neg (not_lt.mpr h1)]
      by_cases ht : now < t0 + ms_to_ktime min_ms
      · rw [if_pos ht, if_pos ht]
        rw [if_neg (not_lt.mpr h2)]
      · rw [if_neg ht, if_neg ht]
        rw [if_neg (not_lt.mpr h2)]
        simp [List.append_assoc]
    · intro ht2
      have hd : 0 ≤ t0 + ms_to_ktime min_ms - now := by omega
      have h3 : ((t0 + ms_to_ktime min_ms - now).toNat : Int) =
          t0 + ms_to_ktime min_ms - now := Int.toNat_of_nonneg hd
      have h4 := Nat.div_add_mod (t0 + ms_to_ktime min_ms - now).toNat 1000000
      have h5 := Nat.mod_lt (t0 + ms_to_ktime min_ms - now).toNat
        (show 0 < 1000000 by norm_num)
      omega

/-- Witness for claim C10: reference time 0, 10 ms already elapsed at the
clock sample, minimum 50 ms, all bus writes succeeding: the helper issues
enter-idle, sleeps 41 ms (at least the 40 ms remaining), and issues
exit-idle. -/
theorem c10_wait_at_least_witness :
    (0 < 50 ∧ 0 ≤ oraAllOk s0.n ∧ 0 ≤ oraAllOk (s0.n + 1)) ∧
    (am4001280atzqw00h_wait oraAllOk s0 0 10000000 50 =
        (0, { drv := s0.drv, n := s0.n + 2,
              tr := s0.tr ++ [.dcsWrite MIPI_DCS_ENTER_IDLE_MODE] ++
                (if (10000000 : Int) < 0 + ms_to_ktime 50 then
                   [.msleep ((0 + ms_to_ktime 50 - 10000000).toNat / 1000000 + 1)]
                 else []) ++
                [.dcsWrite MIPI_DCS_EXIT_IDLE_MODE] }) ∧
      ((10000000 : Int) < 0 + ms_to_ktime 50 →
        0 + ms_to_ktime 50 - 10000000 ≤
          (((0 + ms_to_ktime 50 - 10000000).toNat / 1000000 + 1 : Nat) : Int) * 1000000)) :=
  ⟨⟨by decide, by decide, by decide⟩,
   (c10_wait_at_least oraAllOk s0 0 10000000 50).2 (by decide) (by decide) (by decide)⟩

end Ampire
